import Mathlib

/-!
Verification of `pyrobolearn/robots/gripper.py`.

The file embeds the `Gripper` class hierarchy (`Gripper`, `ParallelGripper`,
`AngularGripper`, `VacuumGripper`) as Lean definitions and proves the spec's
claims about it.  The `Robot` base class lives outside this fragment; its
constructor is therefore an abstract collaborator (`RobotInit`) which every
theorem quantifies over.  Python exceptions are modelled with `Except String`,
and Python list indexing (negative wrap-around, `IndexError` when out of
range) is modelled by `pyListIndex`.
-/

/-- A finger group: an ordered list of link/joint identifiers
(`self.fingers` holds a list of these). -/
abbrev Finger := List Int

/-- The Python class of a gripper instance.  `base` is a plain `Gripper`;
the other three tags correspond to the three variant subclasses. -/
inductive GripperKind
  | base
  | parallel
  | angular
  | vacuum
  deriving Repr, DecidableEq

/-- State established by the external `Robot` collaborator's constructor:
the arguments `Robot.__init__` receives from `Gripper.__init__`.
The simulator handle is opaque (modelled as `Nat`); scalars are `Rat`. -/
structure RobotState where
  sim : Nat
  urdf : String
  position : Rat × Rat × Rat
  orientation : Rat × Rat × Rat × Rat
  fixed_base : Bool
  scale : Rat
  deriving Repr, DecidableEq

/-- The abstract `Robot` constructor: given the six arguments that
`Gripper.__init__` forwards, it either produces a robot state or raises
(returns an error), exactly as the external collaborator may. -/
abbrev RobotInit :=
  Nat → String → (Rat × Rat × Rat) → (Rat × Rat × Rat × Rat) → Bool → Rat →
    Except String RobotState

/-- A gripper instance: its Python class, the state set up by the `Robot`
base constructor, and the `fingers` attribute set by `Gripper.__init__`. -/
structure Gripper where
  kind : GripperKind
  robot : RobotState
  fingers : List Finger
  deriving Repr, DecidableEq

/-- Python truthiness of the optional integer argument `finger_id`:
`None` and `0` are falsy, every other integer is truthy. -/
def pyTruthy (v : Option Int) : Bool :=
  match v with
  | none => false
  | some i => decide (i ≠ 0)

/-- Python list indexing `xs[i]`: a negative index counts from the end;
an index out of range raises `IndexError`. -/
def pyListIndex {α : Type} (xs : List α) (i : Int) : Except String α :=
  let j : Int := if i < 0 then i + xs.length else i
  if 0 ≤ j then
    match xs[j.toNat]? with
    | some v => Except.ok v
    | none => Except.error "IndexError: list index out of range"
  else
    Except.error "IndexError: list index out of range"

/-- The shared `__init__` body of `Gripper` and its three subclasses:
`super().__init__(simulator, urdf, position, orientation, fixed_base, scale)`
followed by `self.fingers = []`.  If the `Robot` constructor raises, the
error propagates and `fingers` is never initialized (no gripper value is
produced); `k` records the Python class being instantiated. -/
def gripperInitBody (k : GripperKind) (robotInit : RobotInit) (simulator : Nat)
    (urdf : String) (position : Rat × Rat × Rat)
    (orientation : Rat × Rat × Rat × Rat) (fixed_base : Bool) (scale : Rat) :
    Except String Gripper :=
  (robotInit simulator urdf position orientation fixed_base scale).map
    fun r => { kind := k, robot := r, fingers := [] }

/-- Constructor `Gripper(simulator, urdf, position=(0, 0, 1.),
orientation=(0, 0, 0, 1), fixed_base=False, scale=1.)`. -/
def Gripper.init (robotInit : RobotInit) (simulator : Nat) (urdf : String)
    (position : Rat × Rat × Rat := (0, 0, 1))
    (orientation : Rat × Rat × Rat × Rat := (0, 0, 0, 1))
    (fixed_base : Bool := false) (scale : Rat := 1) : Except String Gripper :=
  gripperInitBody GripperKind.base robotInit simulator urdf position
    orientation fixed_base scale

/-- Constructor of `ParallelGripper`: same signature and defaults as
`Gripper`; forwards construction to `Gripper.__init__` unchanged. -/
def ParallelGripper.init (robotInit : RobotInit) (simulator : Nat)
    (urdf : String) (position : Rat × Rat × Rat := (0, 0, 1))
    (orientation : Rat × Rat × Rat × Rat := (0, 0, 0, 1))
    (fixed_base : Bool := false) (scale : Rat := 1) : Except String Gripper :=
  gripperInitBody GripperKind.parallel robotInit simulator urdf position
    orientation fixed_base scale

/-- Constructor of `AngularGripper`: same signature and defaults as
`Gripper`; forwards construction to `Gripper.__init__` unchanged. -/
def AngularGripper.init (robotInit : RobotInit) (simulator : Nat)
    (urdf : String) (position : Rat × Rat × Rat := (0, 0, 1))
    (orientation : Rat × Rat × Rat × Rat := (0, 0, 0, 1))
    (fixed_base : Bool := false) (scale : Rat := 1) : Except String Gripper :=
  gripperInitBody GripperKind.angular robotInit simulator urdf position
    orientation fixed_base scale

/-- Constructor of `VacuumGripper`: same signature and defaults as
`Gripper`; forwards construction to `Gripper.__init__` unchanged. -/
def VacuumGripper.init (robotInit : RobotInit) (simulator : Nat)
    (urdf : String) (position : Rat × Rat × Rat := (0, 0, 1))
    (orientation : Rat × Rat × Rat × Rat := (0, 0, 0, 1))
    (fixed_base : Bool := false) (scale : Rat := 1) : Except String Gripper :=
  gripperInitBody GripperKind.vacuum robotInit simulator urdf position
    orientation fixed_base scale

/-- Property `num_fingers`: `return len(self.fingers)`. -/
def Gripper.num_fingers (g : Gripper) : Nat :=
  g.fingers.length

/-- Result of `get_finger`: either one finger's group (index supplied and
truthy) or the whole `fingers` list. -/
inductive FingerResult
  | one (f : Finger)
  | all (fs : List Finger)
  deriving Repr, DecidableEq

/-- Method `get_finger(self, finger_id=None)`:
`if finger_id: return self.fingers[finger_id]` / `return self.fingers`.
The dispatch is Python truthiness, so `finger_id = 0` falls through to the
`return self.fingers` branch exactly like `finger_id = None`. -/
def Gripper.get_finger (g : Gripper) (finger_id : Option Int := none) :
    Except String FingerResult :=
  if pyTruthy finger_id then
    (pyListIndex g.fingers (finger_id.getD 0)).map FingerResult.one
  else
    Except.ok (FingerResult.all g.fingers)

deriving instance DecidableEq for Except

/-- Attribute assignment `self.fingers = fs`, performed by the external
population step the spec describes. -/
def Gripper.set_fingers (g : Gripper) (fs : List Finger) : Gripper :=
  { g with fingers := fs }

/-- The method call `g.num_fingers` as a state transformer on the instance:
the body performs no attribute assignment, so the instance after the call is
returned alongside the result. -/
def Gripper.num_fingers_call (g : Gripper) : Nat × Gripper :=
  (g.num_fingers, g)

/-- The method call `g.get_finger(finger_id)` as a state transformer on the
instance: the body performs no attribute assignment, so the instance after
the call is returned alongside the result. -/
def Gripper.get_finger_call (g : Gripper) (finger_id : Option Int := none) :
    (Except String FingerResult) × Gripper :=
  (g.get_finger finger_id, g)

/-- Observable construction outcome ignoring the Python class tag: the robot
state and the fingers list. -/
def Gripper.core (g : Gripper) : RobotState × List Finger :=
  (g.robot, g.fingers)

/-- A `Robot` constructor that always succeeds, recording its arguments. -/
def okRobotInit : RobotInit :=
  fun s u p o fb sc => Except.ok ⟨s, u, p, o, fb, sc⟩

/-- A `Robot` constructor that always raises. -/
def failRobotInit : RobotInit :=
  fun _ _ _ _ _ _ => Except.error "URDF file not found"

/-- A sample robot state used by the concrete grippers below. -/
def exRobot : RobotState :=
  ⟨0, "gripper.urdf", (0, 0, 1), (0, 0, 0, 1), false, 1⟩

/-- A gripper with no fingers assigned. -/
def exGripper0 : Gripper :=
  ⟨GripperKind.base, exRobot, []⟩

/-- A gripper with two finger groups assigned. -/
def exGripper2 : Gripper :=
  ⟨GripperKind.base, exRobot, [[1, 2], [3, 4]]⟩

/-- A gripper with three finger groups assigned. -/
def exGripper3 : Gripper :=
  ⟨GripperKind.parallel, exRobot, [[10, 11], [20, 21], [30]]⟩

lemma pyListIndex_nonneg_lt {α : Type} (xs : List α) (i : Int) (hi : 0 ≤ i)
    (h : i.toNat < xs.length) :
    pyListIndex xs i = Except.ok (xs.get ⟨i.toNat, h⟩) := by
  unfold pyListIndex
  have hneg : ¬ i < 0 := not_lt.mpr hi
  simp only [hneg, if_false, hi, if_true]
  rw [List.getElem?_eq_getElem h]
  rfl

lemma pyListIndex_nonneg_ge {α : Type} (xs : List α) (i : Int) (hi : 0 ≤ i)
    (h : xs.length ≤ i.toNat) :
    pyListIndex xs i = Except.error "IndexError: list index out of range" := by
  unfold pyListIndex
  have hneg : ¬ i < 0 := not_lt.mpr hi
  simp only [hneg, if_false, hi, if_true]
  rw [List.getElem?_eq_none h]

/-- C3: for every gripper, `get_finger(0)` is indistinguishable from
`get_finger()` with no index: both return the full collection of finger
groups, and the result is never a single positional group. -/
theorem get_finger_zero_is_no_index (g : Gripper) :
    g.get_finger (some 0) = g.get_finger none ∧
    g.get_finger (some 0) = Except.ok (FingerResult.all g.fingers) ∧
    ∀ f : Finger, g.get_finger (some 0) ≠ Except.ok (FingerResult.one f) := by
  refine ⟨rfl, rfl, ?_⟩
  intro f h
  rw [show g.get_finger (some 0) = Except.ok (FingerResult.all g.fingers)
    from rfl] at h
  exact FingerResult.noConfusion (Except.ok.inj h)

/-- C1 counterexample: on a gripper with two assigned finger groups, index 0
is valid (`0 < num_fingers`) and the group stored at position 0 is `[1, 2]`,
yet `get_finger(0)` does not return that group. -/
theorem get_finger_zero_not_position_zero :
    exGripper2.num_fingers = 2 ∧
    exGripper2.fingers.getD 0 [] = [1, 2] ∧
    exGripper2.get_finger (some 0) ≠ Except.ok (FingerResult.one [1, 2]) := by
  refine ⟨rfl, rfl, ?_⟩
  decide

/-- C1 amended: for every gripper and every valid index `i` with
`1 ≤ i < num_fingers`, `get_finger(i)` returns exactly the finger group
stored at position `i` of the fingers sequence (index 0 is excluded: the
truthiness dispatch sends it to the no-index branch). -/
theorem get_finger_positive_valid_index (g : Gripper) (i : Nat) (h1 : 1 ≤ i)
    (h2 : i < g.num_fingers) :
    g.get_finger (some (i : Int))
      = Except.ok (FingerResult.one (g.fingers.getD i [])) := by
  have hn : g.num_fingers = g.fingers.length := rfl
  have hne : ((i : Int)) ≠ 0 := by omega
  have ht : pyTruthy (some (i : Int)) = true := by simp [pyTruthy, hne]
  unfold Gripper.get_finger
  rw [ht]
  simp only [if_true, Option.getD_some]
  have hi : (0 : Int) ≤ (i : Int) := by omega
  have hlt : ((i : Int)).toNat < g.fingers.length := by omega
  rw [pyListIndex_nonneg_lt g.fingers (i : Int) hi hlt]
  have hlt2 : i < g.fingers.length := by omega
  rw [List.getD_eq_getElem _ _ hlt2]
  simp only [Except.map, List.get_eq_getElem, Int.toNat_natCast]

/-- C1 witness: on the two-finger gripper, index 1 is valid and
`get_finger(1)` returns the group stored at position 1. -/
theorem get_finger_positive_valid_index_witness :
    1 ≤ 1 ∧ 1 < exGripper2.num_fingers ∧
    exGripper2.get_finger (some ((1 : Nat) : Int))
      = Except.ok (FingerResult.one [3, 4]) :=
  ⟨by decide, by decide,
    (get_finger_positive_valid_index exGripper2 1 (by decide)
      (by decide)).trans (by decide)⟩

/-- C2 counterexample: on a gripper with no fingers, the index 0 is invalid
(`0 ≥ num_fingers`), yet `get_finger(0)` does not fail: it silently returns
the empty collection, because Python truthiness sends 0 to the no-index
branch. -/
theorem get_finger_invalid_zero_silent :
    exGripper0.num_fingers = 0 ∧
    exGripper0.get_finger (some 0) = Except.ok (FingerResult.all []) := by
  exact ⟨rfl, rfl⟩

/-- C2 amended: for every gripper and every invalid index other than 0
(below `-num_fingers` or at least `num_fingers`), `get_finger` fails with
the out-of-range `IndexError` rather than returning a default value. -/
theorem get_finger_invalid_nonzero_raises (g : Gripper) (i : Int)
    (h0 : i ≠ 0)
    (h : i < -(g.num_fingers : Int) ∨ (g.num_fingers : Int) ≤ i) :
    g.get_finger (some i)
      = Except.error "IndexError: list index out of range" := by
  have hn : (g.num_fingers : Int) = (g.fingers.length : Int) := rfl
  have ht : pyTruthy (some i) = true := by simp [pyTruthy, h0]
  unfold Gripper.get_finger
  rw [ht]
  simp only [if_true, Option.getD_some]
  rcases h with h | h
  · have hi : i < 0 := by omega
    have hj : ¬ (0 ≤ i + (g.fingers.length : Int)) := by omega
    unfold pyListIndex
    simp only [hi, if_true, hj, if_false]
    rfl
  · have hi : (0 : Int) ≤ i := by omega
    rw [pyListIndex_nonneg_ge g.fingers i hi (by omega)]
    rfl

/-- C2 witness: on the finger-less gripper, the invalid index 5 makes
`get_finger` fail with the out-of-range error. -/
theorem get_finger_invalid_nonzero_raises_witness :
    (5 : Int) ≠ 0 ∧ (exGripper0.num_fingers : Int) ≤ 5 ∧
    exGripper0.get_finger (some 5)
      = Except.error "IndexError: list index out of range" :=
  ⟨by decide, by decide,
    get_finger_invalid_nonzero_raises exGripper0 5 (by decide)
      (Or.inr (by decide))⟩

lemma gripperInitBody_ok_fingers (k : GripperKind) (ri : RobotInit) (s : Nat)
    (u : String) (p : Rat × Rat × Rat) (o : Rat × Rat × Rat × Rat) (fb : Bool)
    (sc : Rat) (g : Gripper)
    (hk : gripperInitBody k ri s u p o fb sc = Except.ok g) :
    g.fingers = [] := by
  unfold gripperInitBody at hk
  cases hr : ri s u p o fb sc with
  | ok r =>
      rw [hr] at hk
      simp only [Except.map] at hk
      rw [← Except.ok.inj hk]
  | error e =>
      rw [hr] at hk
      simp only [Except.map] at hk
      exact Except.noConfusion hk

/-- C4: whichever of the four constructors is used, a successfully
constructed gripper starts with `num_fingers = 0` and `get_finger()` with no
index returns the empty collection. -/
theorem init_fingers_empty (ri : RobotInit) (s : Nat) (u : String)
    (p : Rat × Rat × Rat) (o : Rat × Rat × Rat × Rat) (fb : Bool) (sc : Rat)
    (g : Gripper)
    (h : Gripper.init ri s u p o fb sc = Except.ok g ∨
         ParallelGripper.init ri s u p o fb sc = Except.ok g ∨
         AngularGripper.init ri s u p o fb sc = Except.ok g ∨
         VacuumGripper.init ri s u p o fb sc = Except.ok g) :
    g.num_fingers = 0 ∧ g.get_finger none = Except.ok (FingerResult.all []) := by
  have hfin : g.fingers = [] := by
    rcases h with h | h | h | h
    · exact gripperInitBody_ok_fingers GripperKind.base ri s u p o fb sc g h
    · exact gripperInitBody_ok_fingers GripperKind.parallel ri s u p o fb sc g h
    · exact gripperInitBody_ok_fingers GripperKind.angular ri s u p o fb sc g h
    · exact gripperInitBody_ok_fingers GripperKind.vacuum ri s u p o fb sc g h
  constructor
  · simp [Gripper.num_fingers, hfin]
  · simp [Gripper.get_finger, pyTruthy, hfin]

/-- C4 witness: constructing a base gripper with a succeeding robot
constructor yields the concrete finger-less gripper, which indeed reports
zero fingers and an empty collection. -/
theorem init_fingers_empty_witness :
    exGripper0.num_fingers = 0 ∧
    exGripper0.get_finger none = Except.ok (FingerResult.all []) :=
  init_fingers_empty okRobotInit 0 "gripper.urdf" (0, 0, 1) (0, 0, 0, 1)
    false 1 exGripper0 (Or.inl (by decide))

/-- C5: `num_fingers` is derived from the backing sequence: after any
sequence of assignments to `fingers`, it equals the current length of
`fingers`, and after a single assignment it equals the length of the
assigned collection. -/
theorem num_fingers_tracks_fingers (g : Gripper)
    (updates : List (List Finger)) :
    ((updates.foldl Gripper.set_fingers g).num_fingers
        = (updates.foldl Gripper.set_fingers g).fingers.length) ∧
    ∀ fs : List Finger, (g.set_fingers fs).num_fingers = fs.length :=
  ⟨rfl, fun _ => rfl⟩

/-- C6: the method calls `num_fingers` and `get_finger` leave the instance
unchanged (all fields, `fingers` included), and a repeated call with the
same argument on the post-call instance returns the same result. -/
theorem queries_pure (g : Gripper) (a : Option Int) :
    (Gripper.num_fingers_call g).2 = g ∧
    (Gripper.get_finger_call g a).2 = g ∧
    ((Gripper.get_finger_call g a).2.get_finger_call a).1
        = (Gripper.get_finger_call g a).1 ∧
    ((Gripper.num_fingers_call g).2.num_fingers_call).1
        = (Gripper.num_fingers_call g).1 :=
  ⟨rfl, rfl, rfl, rfl⟩

/-- C7: each variant constructor, run on arguments identical to the base
constructor, produces the same robot state and fingers (it differs only in
the Python class tag), and the class tag is irrelevant to both queries:
`num_fingers` and `get_finger` behave identically on any two grippers that
differ only in their tag. -/
theorem variants_substitutable (ri : RobotInit) (s : Nat) (u : String)
    (p : Rat × Rat × Rat) (o : Rat × Rat × Rat × Rat) (fb : Bool) (sc : Rat)
    (k : GripperKind) (r : RobotState) (fs : List Finger) (a : Option Int) :
    (ParallelGripper.init ri s u p o fb sc).map Gripper.core
        = (Gripper.init ri s u p o fb sc).map Gripper.core ∧
    (AngularGripper.init ri s u p o fb sc).map Gripper.core
        = (Gripper.init ri s u p o fb sc).map Gripper.core ∧
    (VacuumGripper.init ri s u p o fb sc).map Gripper.core
        = (Gripper.init ri s u p o fb sc).map Gripper.core ∧
    (Gripper.mk k r fs).num_fingers
        = (Gripper.mk GripperKind.base r fs).num_fingers ∧
    (Gripper.mk k r fs).get_finger a
        = (Gripper.mk GripperKind.base r fs).get_finger a := by
  refine ⟨?_, ?_, ?_, rfl, rfl⟩
  all_goals
    cases hr : ri s u p o fb sc with
    | ok r2 =>
        simp [ParallelGripper.init, AngularGripper.init, VacuumGripper.init,
          Gripper.init, gripperInitBody, hr, Except.map, Gripper.core]
    | error e =>
        simp [ParallelGripper.init, AngularGripper.init, VacuumGripper.init,
          Gripper.init, gripperInitBody, hr, Except.map]

/-- C8: when the `Robot` collaborator's constructor fails, the `Gripper`
constructor propagates exactly that error: it raises nothing of its own,
translates nothing, and produces no gripper (so `fingers` is never
initialized on that path). -/
theorem init_propagates_robot_error (ri : RobotInit) (s : Nat) (u : String)
    (p : Rat × Rat × Rat) (o : Rat × Rat × Rat × Rat) (fb : Bool) (sc : Rat)
    (e : String) (h : ri s u p o fb sc = Except.error e) :
    Gripper.init ri s u p o fb sc = Except.error e := by
  unfold Gripper.init gripperInitBody
  rw [h]
  rfl

/-- C8 witness: with a robot constructor that fails on a missing URDF file,
the gripper constructor surfaces that very error. -/
theorem init_propagates_robot_error_witness :
    failRobotInit 0 "missing.urdf" (0, 0, 1) (0, 0, 0, 1) false 1
        = Except.error "URDF file not found" ∧
    Gripper.init failRobotInit 0 "missing.urdf"
        = Except.error "URDF file not found" :=
  ⟨rfl, init_propagates_robot_error failRobotInit 0 "missing.urdf" (0, 0, 1)
    (0, 0, 0, 1) false 1 "URDF file not found" rfl⟩

/-- C9: on a gripper with `n ≥ 1` fingers, a negative index `-k` with
`1 ≤ k ≤ n` does not fail: Python indexing wraps around and `get_finger(-k)`
returns the finger group stored at position `n - k`. -/
theorem get_finger_negative_wraps (g : Gripper) (k : Nat) (h1 : 1 ≤ k)
    (h2 : k ≤ g.num_fingers) :
    g.get_finger (some (-(k : Int)))
      = Except.ok (FingerResult.one (g.fingers.getD (g.num_fingers - k) [])) := by
  have hn : g.num_fingers = g.fingers.length := rfl
  have hne : (-(k : Int)) ≠ 0 := by omega
  have ht : pyTruthy (some (-(k : Int))) = true := by simp [pyTruthy, hne]
  unfold Gripper.get_finger
  rw [ht]
  simp only [if_true, Option.getD_some]
  unfold pyListIndex
  have hi : (-(k : Int)) < 0 := by omega
  have hj : (0 : Int) ≤ -(k : Int) + (g.fingers.length : Int) := by omega
  simp only [hi, if_true, hj]
  have htn : ((-(k : Int)) + (g.fingers.length : Int)).toNat
      = g.fingers.length - k := by omega
  rw [htn]
  have hlt : g.fingers.length - k < g.fingers.length := by omega
  rw [List.getElem?_eq_getElem hlt]
  rw [hn, List.getD_eq_getElem _ _ hlt]
  rfl

/-- C9 witness: on the three-finger gripper, `get_finger(-2)` returns the
group stored at position 1. -/
theorem get_finger_negative_wraps_witness :
    1 ≤ 2 ∧ 2 ≤ exGripper3.num_fingers ∧
    exGripper3.get_finger (some (-((2 : Nat) : Int)))
        = Except.ok (FingerResult.one [20, 21]) :=
  ⟨by decide, by decide,
    (get_finger_negative_wraps exGripper3 2 (by decide)
      (by decide)).trans (by decide)⟩

/-- C10: all four constructors accept just the simulator and URDF arguments;
omitting position, orientation, fixed_base and scale is the same call as
passing `(0, 0, 1)`, `(0, 0, 0, 1)`, `false` and `1` explicitly. -/
theorem init_default_arguments (ri : RobotInit) (s : Nat) (u : String) :
    Gripper.init ri s u
        = Gripper.init ri s u (0, 0, 1) (0, 0, 0, 1) false 1 ∧
    ParallelGripper.init ri s u
        = ParallelGripper.init ri s u (0, 0, 1) (0, 0, 0, 1) false 1 ∧
    AngularGripper.init ri s u
        = AngularGripper.init ri s u (0, 0, 1) (0, 0, 0, 1) false 1 ∧
    VacuumGripper.init ri s u
        = VacuumGripper.init ri s u (0, 0, 1) (0, 0, 0, 1) false 1 :=
  ⟨rfl, rfl, rfl, rfl⟩
